import Mathlib

/-!
Shallow embedding of the client-side filtering and pagination-reconciliation
engine of mal-mcp-server (src/src/filters.ts): the FilterSpec data model, the
predicate evaluator `matchesFilters`, the activity test `hasActiveFilters`,
the description builder `buildActiveFilterDescriptions`, and the
auto-paginating orchestrator `filteredFetch`.

JavaScript `string` becomes Lean `String`, `number` score fields become `Rat`
(exact rationals; no claim depends on floating-point rounding), optional
fields become `Option`, and JS truthiness of optional strings / booleans is
modelled explicitly (`undefined` and `""` are falsy).  The fallible
`fetchPage` capability returns `Except ε`, and `filteredFetch` is written in
the `Except` monadic style by explicit matching, mirroring `await`/rejection.
-/

namespace MalMcp

/-- One genre tag on a catalog record (`{ name: string }` in filters.ts). -/
structure Genre where
  name : String
deriving DecidableEq, Repr

/-- `start_season` of a record: `{ year: number; season: string }`. -/
structure StartSeason where
  year : Int
  season : String
deriving DecidableEq, Repr

/-- `FilterableNode` from filters.ts: the record attributes the predicate
evaluator inspects.  Every field is optional, exactly as in the source. -/
structure FilterableNode where
  genres : Option (List Genre) := none
  mean : Option Rat := none
  media_type : Option String := none
  status : Option String := none
  num_list_users : Option Nat := none
  source : Option String := none
  start_season : Option StartSeason := none
deriving DecidableEq, Repr

/-- The `genre_mode` enum `{"or","and"}` of the zod schema. -/
inductive GenreMode where
  | orMode
  | andMode
deriving DecidableEq, Repr

/-- The string the source stores for each `genre_mode` value. -/
def genreModeToString : GenreMode → String
  | GenreMode.orMode => "or"
  | GenreMode.andMode => "and"

/-- `FilterParams` from filters.ts: the typed view of one FilterSpec.
A field that is `none` corresponds to the key being absent (`undefined`). -/
structure FilterParams where
  genres_include : Option (List String) := none
  genres_exclude : Option (List String) := none
  genre_mode : Option GenreMode := none
  min_score : Option Rat := none
  min_members : Option Nat := none
  media_type : Option (List String) := none
  status : Option String := none
  source : Option (List String) := none
  current_season_only : Option Bool := none
deriving DecidableEq, Repr

/-- `SeasonContext` from filters.ts. -/
structure SeasonContext where
  queriedYear : Int
  queriedSeason : String
deriving DecidableEq, Repr

/-- JS `s.toLowerCase()` on a genre/string value: per-character lowering
(written over the underlying character list so it computes by `decide`). -/
def lower (s : String) : String := String.mk (s.data.map Char.toLower)

/-- JS `s.toUpperCase()` (used on the genre mode in the description builder). -/
def upper (s : String) : String := String.mk (s.data.map Char.toUpper)

/-- JS truthiness of an optional string: `undefined` and `""` are falsy. -/
def jsTruthyStr : Option String → Bool
  | none => false
  | some s => !(s == "")

/-- JS truthiness of an optional boolean: `undefined` and `false` are falsy. -/
def jsTruthyBool : Option Bool → Bool
  | none => false
  | some b => b

/-- `hasActiveFilters` from filters.ts: a spec is active iff some
non-modifier key holds a value other than `undefined`, `false`, or an empty
array.  `genre_mode` is in `MODIFIER_KEYS` and never counts. -/
def hasActiveFilters (f : FilterParams) : Bool :=
  (match f.genres_include with | some l => !(l.length == 0) | none => false) ||
  (match f.genres_exclude with | some l => !(l.length == 0) | none => false) ||
  f.min_score.isSome ||
  f.min_members.isSome ||
  (match f.media_type with | some l => !(l.length == 0) | none => false) ||
  f.status.isSome ||
  (match f.source with | some l => !(l.length == 0) | none => false) ||
  (match f.current_season_only with | some b => b | none => false)

/-- `matchesFilters` from filters.ts: conjunctive per-record predicate.
Each early `return false` of the source becomes one conjunct. -/
def matchesFilters (node : FilterableNode) (filters : FilterParams)
    (seasonContext : Option SeasonContext) : Bool :=
  let genreNames := (node.genres.getD []).map (fun g => lower g.name)
  (match filters.genres_include with
   | some gi =>
     if gi.length > 0 then
       let wanted := gi.map lower
       match filters.genre_mode.getD GenreMode.orMode with
       | GenreMode.andMode => wanted.all (fun w => genreNames.contains w)
       | GenreMode.orMode => wanted.any (fun w => genreNames.contains w)
     else true
   | none => true) &&
  (match filters.genres_exclude with
   | some ge =>
     if ge.length > 0 then
       let excluded := ge.map lower
       !(excluded.any (fun e => genreNames.contains e))
     else true
   | none => true) &&
  (match filters.min_score with
   | some ms =>
     (match node.mean with
      | none => false
      | some m => !(m < ms))
   | none => true) &&
  (match filters.min_members with
   | some mm => !((node.num_list_users.getD 0) < mm)
   | none => true) &&
  (match filters.media_type with
   | some mts =>
     if mts.length > 0 then
       (match node.media_type with
        | none => false
        | some mt => if mt == "" then false else mts.contains mt)
     else true
   | none => true) &&
  (if jsTruthyStr filters.status then
     (match node.status, filters.status with
      | some ns, some fs => ns == fs
      | _, _ => false)
   else true) &&
  (match filters.source with
   | some srcs =>
     if srcs.length > 0 then
       (match node.source with
        | none => false
        | some s => if s == "" then false else srcs.contains s)
     else true
   | none => true) &&
  (if jsTruthyBool filters.current_season_only then
     (match seasonContext with
      | some ctx =>
        (match node.start_season with
         | none => false
         | some ss =>
           decide (ss.year = ctx.queriedYear) &&
           (ss.season == ctx.queriedSeason))
      | none => true)
   else true)

/-- `buildActiveFilterDescriptions` from filters.ts: each `parts.push`
under its truthiness guard becomes one `if`-segment of a concatenation, in
the source's order. -/
def buildActiveFilterDescriptions (f : FilterParams) : List String :=
  (match f.genres_include with
   | some l =>
     if l.length > 0 then
       ["genres(" ++
          upper (genreModeToString (f.genre_mode.getD GenreMode.orMode)) ++
          ")=" ++ String.intercalate "," l]
     else []
   | none => []) ++
  (match f.genres_exclude with
   | some l =>
     if l.length > 0 then ["exclude_genres=" ++ String.intercalate "," l]
     else []
   | none => []) ++
  (match f.min_score with
   | some q => ["min_score>=" ++ toString q]
   | none => []) ++
  (match f.min_members with
   | some n => ["min_members>=" ++ toString n]
   | none => []) ++
  (match f.media_type with
   | some l =>
     if l.length > 0 then ["media_type=" ++ String.intercalate "," l]
     else []
   | none => []) ++
  (if jsTruthyStr f.status then ["status=" ++ f.status.getD ""] else []) ++
  (match f.source with
   | some l =>
     if l.length > 0 then ["source=" ++ String.intercalate "," l]
     else []
   | none => []) ++
  (if jsTruthyBool f.current_season_only then ["current_season_only"] else [])

/-- `MalPaging` from types.ts (only `next` matters to the orchestrator). -/
structure MalPaging where
  next : Option String := none
deriving DecidableEq, Repr

/-- `MalListResponse<T>` from types.ts. -/
structure MalListResponse (T : Type) where
  data : List T
  paging : MalPaging
deriving DecidableEq, Repr

/-- `FilterMeta` from filters.ts. -/
structure FilterMeta where
  totalScanned : Nat
  totalMatched : Nat
  pagesScanned : Nat
  activeFilters : List String
  hasMorePages : Bool
  nextOffset : Option Nat := none
deriving DecidableEq, Repr

/-- `FILTERED_PAGE_SIZE` (the overfetch window) from filters.ts. -/
def FILTERED_PAGE_SIZE : Nat := 100

/-- The scan loop of `filteredFetch`: walk the window in arrival order,
collecting records that satisfy `p`, and stop as soon as the accumulator
length reaches `need` (the requested limit).  Mirrors the `for`/`break` of
the source: a match is appended first, then the length test runs. -/
def collectMatches {T : Type} (p : T → Bool) : List T → Nat → List T
  | [], _ => []
  | x :: xs, need =>
    if p x then
      if need ≤ 1 then [x] else x :: collectMatches p xs (need - 1)
    else collectMatches p xs need

/-- `filteredFetch` from filters.ts.  `getNode` is the structural
`T extends { node: FilterableNode }` projection; `fetchPage` is the abstract
paging capability, whose rejection is `Except.error`. -/
def filteredFetch {ε T : Type} (getNode : T → FilterableNode)
    (fetchPage : Nat → Nat → Except ε (MalListResponse T))
    (filters : FilterParams) (requestedLimit initialOffset : Nat)
    (seasonContext : Option SeasonContext) :
    Except ε (List T × FilterMeta) :=
  if !hasActiveFilters filters then
    match fetchPage requestedLimit initialOffset with
    | Except.error e => Except.error e
    | Except.ok result =>
      Except.ok (result.data,
        { totalScanned := result.data.length
          totalMatched := result.data.length
          pagesScanned := 1
          activeFilters := []
          hasMorePages := jsTruthyStr result.paging.next
          nextOffset := none })
  else
    match fetchPage FILTERED_PAGE_SIZE initialOffset with
    | Except.error e => Except.error e
    | Except.ok result =>
      let matched := collectMatches
        (fun item => matchesFilters (getNode item) filters seasonContext)
        result.data requestedLimit
      let hasMore := jsTruthyStr result.paging.next &&
        decide (FILTERED_PAGE_SIZE ≤ result.data.length)
      Except.ok (matched.take requestedLimit,
        { totalScanned := result.data.length
          totalMatched := matched.length
          pagesScanned := 1
          activeFilters := buildActiveFilterDescriptions filters
          hasMorePages := hasMore
          nextOffset :=
            if hasMore then some (initialOffset + result.data.length)
            else none })

/-! Concrete sample values used by witnesses and counterexamples.  The
scenario-B window has 100 records, the first 12 scoring 9 and the rest 1. -/

/-- A record whose mean score is 9. -/
def sampleHighScore : FilterableNode := { mean := some 9 }

/-- A record whose mean score is 1. -/
def sampleLowScore : FilterableNode := { mean := some 1 }

/-- Scenario-B window: 100 records, of which exactly the first 12 score at
least 8. -/
def sampleWindowB : List FilterableNode :=
  List.replicate 12 sampleHighScore ++ List.replicate 88 sampleLowScore

/-- Scenario-B filter spec: `min_score = 8`. -/
def sampleSpecMinScore8 : FilterParams := { min_score := some 8 }

/-- A fetch capability that always returns the scenario-B window with a
continuation token present. -/
def sampleFetchB : Nat → Nat → Except Unit (MalListResponse FilterableNode) :=
  fun _ _ => Except.ok { data := sampleWindowB, paging := { next := some "tok" } }

/-! Helper lemmas about the scan loop. -/

theorem collectMatches_length_le {T : Type} (p : T → Bool) (xs : List T) (need : Nat) :
    (collectMatches p xs need).length ≤ xs.length := by
  induction xs generalizing need with
  | nil => simp [collectMatches]
  | cons x xs ih =>
    simp only [collectMatches]
    by_cases hp : p x
    · simp only [hp, if_true]
      by_cases hn : need ≤ 1
      · simp only [hn, if_true, List.length_cons]
        show 1 ≤ xs.length + 1
        omega
      · simp only [hn, if_false, List.length_cons]
        exact Nat.succ_le_succ (ih (need - 1))
    · simp only [hp, if_false, List.length_cons]
      exact Nat.le_succ_of_le (ih need)

theorem collectMatches_eq_filter_take {T : Type} (p : T → Bool) (xs : List T)
    (need : Nat) (h : 1 ≤ need) :
    collectMatches p xs need = (xs.filter p).take need := by
  induction xs generalizing need with
  | nil => simp [collectMatches]
  | cons x xs ih =>
    simp only [collectMatches, List.filter_cons]
    by_cases hp : p x
    · simp only [hp, if_true]
      by_cases hn : need ≤ 1
      · have : need = 1 := by omega
        subst this
        simp [List.take_succ_cons]
      · have h1 : 1 ≤ need - 1 := by omega
        have h2 : need - 1 + 1 = need := by omega
        simp only [hn, if_false, ih (need - 1) h1]
        rw [← h2]
        simp [List.take_succ_cons]
    · simp only [hp, if_false]
      exact ih need h

/-! Path lemmas for `filteredFetch`: what each branch returns. -/

theorem filteredFetch_inactive_eq {ε T : Type} {getNode : T → FilterableNode}
    {fetchPage : Nat → Nat → Except ε (MalListResponse T)} {filters : FilterParams}
    {requestedLimit initialOffset : Nat} {ctx : Option SeasonContext}
    {resp : MalListResponse T}
    (h : hasActiveFilters filters = false)
    (hfp : fetchPage requestedLimit initialOffset = Except.ok resp) :
    filteredFetch getNode fetchPage filters requestedLimit initialOffset ctx =
      Except.ok (resp.data,
        { totalScanned := resp.data.length
          totalMatched := resp.data.length
          pagesScanned := 1
          activeFilters := []
          hasMorePages := jsTruthyStr resp.paging.next
          nextOffset := none }) := by
  unfold filteredFetch
  rw [h, hfp]
  rfl

theorem filteredFetch_active_eq {ε T : Type} {getNode : T → FilterableNode}
    {fetchPage : Nat → Nat → Except ε (MalListResponse T)} {filters : FilterParams}
    {requestedLimit initialOffset : Nat} {ctx : Option SeasonContext}
    {resp : MalListResponse T}
    (h : hasActiveFilters filters = true)
    (hfp : fetchPage FILTERED_PAGE_SIZE initialOffset = Except.ok resp) :
    filteredFetch getNode fetchPage filters requestedLimit initialOffset ctx =
      Except.ok
        ((collectMatches (fun item => matchesFilters (getNode item) filters ctx)
            resp.data requestedLimit).take requestedLimit,
         { totalScanned := resp.data.length
           totalMatched := (collectMatches
             (fun item => matchesFilters (getNode item) filters ctx)
             resp.data requestedLimit).length
           pagesScanned := 1
           activeFilters := buildActiveFilterDescriptions filters
           hasMorePages := jsTruthyStr resp.paging.next &&
             decide (FILTERED_PAGE_SIZE ≤ resp.data.length)
           nextOffset :=
             if jsTruthyStr resp.paging.next &&
                 decide (FILTERED_PAGE_SIZE ≤ resp.data.length) then
               some (initialOffset + resp.data.length)
             else none }) := by
  unfold filteredFetch
  rw [h, hfp]
  rfl

theorem filteredFetch_error_eq {ε T : Type} {getNode : T → FilterableNode}
    {fetchPage : Nat → Nat → Except ε (MalListResponse T)} {filters : FilterParams}
    {requestedLimit initialOffset : Nat} {ctx : Option SeasonContext} {e : ε}
    (h : fetchPage (if hasActiveFilters filters then FILTERED_PAGE_SIZE else requestedLimit)
           initialOffset = Except.error e) :
    filteredFetch getNode fetchPage filters requestedLimit initialOffset ctx =
      Except.error e := by
  unfold filteredFetch
  cases hact : hasActiveFilters filters with
  | false =>
    rw [hact] at h
    simp only [Bool.false_eq_true, if_false] at h
    rw [h]
    rfl
  | true =>
    rw [hact] at h
    simp only [if_true] at h
    rw [h]
    rfl

theorem filteredFetch_ok_cases {ε T : Type} {getNode : T → FilterableNode}
    {fetchPage : Nat → Nat → Except ε (MalListResponse T)} {filters : FilterParams}
    {requestedLimit initialOffset : Nat} {ctx : Option SeasonContext}
    {items : List T} {meta : FilterMeta}
    (hok : filteredFetch getNode fetchPage filters requestedLimit initialOffset ctx =
      Except.ok (items, meta)) :
    (hasActiveFilters filters = false ∧ ∃ resp : MalListResponse T,
       fetchPage requestedLimit initialOffset = Except.ok resp ∧
       items = resp.data ∧
       meta = { totalScanned := resp.data.length
                totalMatched := resp.data.length
                pagesScanned := 1
                activeFilters := []
                hasMorePages := jsTruthyStr resp.paging.next
                nextOffset := none }) ∨
    (hasActiveFilters filters = true ∧ ∃ resp : MalListResponse T,
       fetchPage FILTERED_PAGE_SIZE initialOffset = Except.ok resp ∧
       items = (collectMatches (fun item => matchesFilters (getNode item) filters ctx)
         resp.data requestedLimit).take requestedLimit ∧
       meta = { totalScanned := resp.data.length
                totalMatched := (collectMatches
                  (fun item => matchesFilters (getNode item) filters ctx)
                  resp.data requestedLimit).length
                pagesScanned := 1
                activeFilters := buildActiveFilterDescriptions filters
                hasMorePages := jsTruthyStr resp.paging.next &&
                  decide (FILTERED_PAGE_SIZE ≤ resp.data.length)
                nextOffset :=
                  if jsTruthyStr resp.paging.next &&
                      decide (FILTERED_PAGE_SIZE ≤ resp.data.length) then
                    some (initialOffset + resp.data.length)
                  else none }) := by
  cases h : hasActiveFilters filters with
  | false =>
    left
    refine ⟨rfl, ?_⟩
    cases hfp : fetchPage requestedLimit initialOffset with
    | error e =>
      rw [filteredFetch_error_eq (by rw [h]; simpa using hfp)] at hok
      exact absurd hok (by simp)
    | ok resp =>
      rw [filteredFetch_inactive_eq h hfp] at hok
      simp only [Except.ok.injEq, Prod.mk.injEq] at hok
      exact ⟨resp, rfl, hok.1.symm, hok.2.symm⟩
  | true =>
    right
    refine ⟨rfl, ?_⟩
    cases hfp : fetchPage FILTERED_PAGE_SIZE initialOffset with
    | error e =>
      rw [filteredFetch_error_eq (by rw [h]; simpa using hfp)] at hok
      exact absurd hok (by simp)
    | ok resp =>
      rw [filteredFetch_active_eq h hfp] at hok
      simp only [Except.ok.injEq, Prod.mk.injEq] at hok
      exact ⟨resp, rfl, hok.1.symm, hok.2.symm⟩

/-- A filter spec with every field unset: inactive. -/
def sampleInactiveSpec : FilterParams := {}

/-- C1: on the filtered path, `meta.hasMorePages` is true iff the remote
continuation indicator (`paging.next`, JS-truthy) was present and the fetched
window size equals `FILTERED_PAGE_SIZE = 100`; in particular a window of
fewer than 100 records always yields `hasMorePages = false` regardless of the
indicator.  The window-size bound `≤ 100` is the paging capability contract
(a page never exceeds the requested size). -/
theorem C1_hasMorePages_iff_full_window {ε T : Type} (getNode : T → FilterableNode)
    (fetchPage : Nat → Nat → Except ε (MalListResponse T)) (filters : FilterParams)
    (requestedLimit initialOffset : Nat) (ctx : Option SeasonContext)
    (resp : MalListResponse T)
    (hact : hasActiveFilters filters = true)
    (hfp : fetchPage FILTERED_PAGE_SIZE initialOffset = Except.ok resp)
    (hlen : resp.data.length ≤ FILTERED_PAGE_SIZE) :
    ∃ items meta,
      filteredFetch getNode fetchPage filters requestedLimit initialOffset ctx =
        Except.ok (items, meta) ∧
      (meta.hasMorePages = true ↔
        (jsTruthyStr resp.paging.next = true ∧
         resp.data.length = FILTERED_PAGE_SIZE)) ∧
      (resp.data.length < FILTERED_PAGE_SIZE → meta.hasMorePages = false) := by
  refine ⟨_, _, filteredFetch_active_eq hact hfp, ?_, ?_⟩
  · simp only [Bool.and_eq_true, decide_eq_true_eq]
    constructor
    · rintro ⟨h1, h2⟩
      exact ⟨h1, le_antisymm hlen h2⟩
    · rintro ⟨h1, h2⟩
      exact ⟨h1, le_of_eq h2.symm⟩
  · intro hlt
    have hnot : ¬ (FILTERED_PAGE_SIZE ≤ resp.data.length) := Nat.not_le.mpr hlt
    simp [decide_eq_false hnot]

/-- Witness for C1 at the scenario-B window (100 records, token present). -/
theorem C1_hasMorePages_iff_full_window_witness :
    ∃ items meta,
      filteredFetch (fun n : FilterableNode => n) sampleFetchB sampleSpecMinScore8
          5 0 none = Except.ok (items, meta) ∧
      (meta.hasMorePages = true ↔
        (jsTruthyStr (some "tok") = true ∧
         sampleWindowB.length = FILTERED_PAGE_SIZE)) ∧
      (sampleWindowB.length < FILTERED_PAGE_SIZE → meta.hasMorePages = false) :=
  C1_hasMorePages_iff_full_window (fun n => n) sampleFetchB sampleSpecMinScore8
    5 0 none { data := sampleWindowB, paging := { next := some "tok" } }
    (by decide) rfl (by decide)

/-- C4: with an inactive spec, `filteredFetch` is the identity wrapper around
one `fetchPage requestedLimit initialOffset` call: records verbatim,
`hasMorePages` mirroring the remote indicator, `totalScanned = totalMatched =`
record count, `pagesScanned = 1`, `activeFilters = []`, and the result
depends on the capability only at the arguments of that single call. -/
theorem C4_inactive_passthrough {ε T : Type} (getNode : T → FilterableNode)
    (fetchPage : Nat → Nat → Except ε (MalListResponse T)) (filters : FilterParams)
    (requestedLimit initialOffset : Nat) (ctx : Option SeasonContext)
    (resp : MalListResponse T)
    (hinact : hasActiveFilters filters = false)
    (hfp : fetchPage requestedLimit initialOffset = Except.ok resp) :
    filteredFetch getNode fetchPage filters requestedLimit initialOffset ctx =
      Except.ok (resp.data,
        { totalScanned := resp.data.length
          totalMatched := resp.data.length
          pagesScanned := 1
          activeFilters := []
          hasMorePages := jsTruthyStr resp.paging.next
          nextOffset := none }) ∧
    (∀ fetchPage2 : Nat → Nat → Except ε (MalListResponse T),
       fetchPage2 requestedLimit initialOffset = fetchPage requestedLimit initialOffset →
       filteredFetch getNode fetchPage2 filters requestedLimit initialOffset ctx =
         filteredFetch getNode fetchPage filters requestedLimit initialOffset ctx) := by
  refine ⟨filteredFetch_inactive_eq hinact hfp, ?_⟩
  intro fetchPage2 hagree
  rw [filteredFetch_inactive_eq hinact hfp,
      filteredFetch_inactive_eq hinact (hagree.trans hfp)]

/-- Witness for C4: one high-score record, no continuation token, limit 10. -/
theorem C4_inactive_passthrough_witness :
    filteredFetch (fun n : FilterableNode => n)
      (fun _ _ => (Except.ok { data := [sampleHighScore], paging := {} } :
        Except Unit (MalListResponse FilterableNode)))
      sampleInactiveSpec 10 0 none =
      Except.ok ([sampleHighScore],
        { totalScanned := 1
          totalMatched := 1
          pagesScanned := 1
          activeFilters := []
          hasMorePages := false
          nextOffset := none }) ∧
    (∀ fetchPage2 : Nat → Nat → Except Unit (MalListResponse FilterableNode),
       fetchPage2 10 0 = (fun _ _ => (Except.ok
           { data := [sampleHighScore], paging := {} } :
         Except Unit (MalListResponse FilterableNode))) 10 0 →
       filteredFetch (fun n : FilterableNode => n) fetchPage2
           sampleInactiveSpec 10 0 none =
         filteredFetch (fun n : FilterableNode => n)
           (fun _ _ => (Except.ok { data := [sampleHighScore], paging := {} } :
             Except Unit (MalListResponse FilterableNode)))
           sampleInactiveSpec 10 0 none) :=
  C4_inactive_passthrough (fun n => n)
    (fun _ _ => Except.ok { data := [sampleHighScore], paging := {} })
    sampleInactiveSpec 10 0 none { data := [sampleHighScore], paging := {} }
    (by decide) rfl

/-- C9: any failure of the single `fetchPage` call a path performs
propagates unmodified: `filteredFetch` returns exactly that error, with no
retry, no partial result, and no transformation. -/
theorem C9_fetch_error_propagates {ε T : Type} (getNode : T → FilterableNode)
    (fetchPage : Nat → Nat → Except ε (MalListResponse T)) (filters : FilterParams)
    (requestedLimit initialOffset : Nat) (ctx : Option SeasonContext) (e : ε)
    (h : fetchPage (if hasActiveFilters filters then FILTERED_PAGE_SIZE
            else requestedLimit) initialOffset = Except.error e) :
    filteredFetch getNode fetchPage filters requestedLimit initialOffset ctx =
      Except.error e :=
  filteredFetch_error_eq h

/-- Witness for C9: a capability that always rejects with a string error. -/
theorem C9_fetch_error_propagates_witness :
    filteredFetch (fun n : FilterableNode => n)
      (fun _ _ => (Except.error "http 500" :
        Except String (MalListResponse FilterableNode)))
      sampleInactiveSpec 7 0 none = Except.error "http 500" :=
  C9_fetch_error_propagates (fun n => n)
    (fun _ _ => Except.error "http 500") sampleInactiveSpec 7 0 none
    "http 500" rfl

/-- The (items, meta) value `filteredFetch` returns in scenario B
(window `sampleWindowB`, spec `sampleSpecMinScore8`, limit 5, offset 0):
the scan stops after 5 matches, so `totalMatched = 5`. -/
def sampleMetaB : FilterMeta :=
  { totalScanned := 100
    totalMatched := 5
    pagesScanned := 1
    activeFilters := ["min_score>=8"]
    hasMorePages := true
    nextOffset := some 100 }

/-- C2 counterexample: on the unfiltered path the code never emits
`nextOffset`, even when `hasMorePages` is true (here the remote indicator is
present), so "nextOffset is present iff hasMorePages" fails as stated for
the unfiltered path: the returned meta has `hasMorePages := true` and
`nextOffset := none`. -/
theorem C2_counterexample :
    filteredFetch (fun n : FilterableNode => n)
      (fun _ _ => (Except.ok { data := [], paging := { next := some "tok" } } :
        Except Unit (MalListResponse FilterableNode)))
      sampleInactiveSpec 10 0 none =
      Except.ok ([],
        { totalScanned := 0
          totalMatched := 0
          pagesScanned := 1
          activeFilters := []
          hasMorePages := true
          nextOffset := none }) := by
  rfl

/-- C2 amended: on the filtered path `nextOffset` is present iff
`hasMorePages`, and when present equals `initialOffset + totalScanned` (the
number of records actually fetched); on the unfiltered path `nextOffset` is
never present, even when `hasMorePages` is true. -/
theorem C2_nextOffset_amended {ε T : Type} (getNode : T → FilterableNode)
    (fetchPage : Nat → Nat → Except ε (MalListResponse T)) (filters : FilterParams)
    (requestedLimit initialOffset : Nat) (ctx : Option SeasonContext)
    (items : List T) (meta : FilterMeta)
    (hok : filteredFetch getNode fetchPage filters requestedLimit initialOffset ctx =
      Except.ok (items, meta)) :
    (hasActiveFilters filters = true →
      ((meta.nextOffset.isSome = true ↔ meta.hasMorePages = true) ∧
       (meta.hasMorePages = true →
         meta.nextOffset = some (initialOffset + meta.totalScanned)))) ∧
    (hasActiveFilters filters = false → meta.nextOffset = none) := by
  rcases filteredFetch_ok_cases hok with ⟨hin, resp, hfp, hitems, hmeta⟩ |
    ⟨hact, resp, hfp, hitems, hmeta⟩
  · subst hmeta
    exact ⟨fun h => absurd h (by rw [hin]; simp), fun _ => rfl⟩
  · subst hmeta
    refine ⟨fun _ => ?_, fun h => absurd h (by rw [hact]; simp)⟩
    cases hb : jsTruthyStr resp.paging.next &&
        decide (FILTERED_PAGE_SIZE ≤ resp.data.length) with
    | false => simp [hb]
    | true => simp [hb]

/-- Witness for the amended C2 at scenario B. -/
theorem C2_nextOffset_amended_witness :
    (hasActiveFilters sampleSpecMinScore8 = true →
      ((sampleMetaB.nextOffset.isSome = true ↔ sampleMetaB.hasMorePages = true) ∧
       (sampleMetaB.hasMorePages = true →
         sampleMetaB.nextOffset = some (0 + sampleMetaB.totalScanned)))) ∧
    (hasActiveFilters sampleSpecMinScore8 = false → sampleMetaB.nextOffset = none) :=
  C2_nextOffset_amended (fun n => n) sampleFetchB sampleSpecMinScore8 5 0 none
    (List.replicate 5 sampleHighScore) sampleMetaB rfl

/-- C3 counterexample: in scenario B (window of 100, exactly 12 records
scoring at least 8, requested limit 5) the scan loop stops as soon as 5
matches accumulate, so the returned `totalMatched` is 5, not the claimed
pre-truncation match count 12. -/
theorem C3_counterexample :
    filteredFetch (fun n : FilterableNode => n) sampleFetchB sampleSpecMinScore8
        5 0 none =
      Except.ok (List.replicate 5 sampleHighScore, sampleMetaB) ∧
    sampleMetaB.totalMatched = 5 ∧ (5 : Nat) ≠ 12 :=
  ⟨rfl, rfl, by decide⟩

/-- C3 amended: on the filtered path the returned items are the first
`requestedLimit` records of the window passing the predicate, in arrival
order, `totalScanned` is the full window size, and `totalMatched` equals
`min requestedLimit (matches in the whole window)` (for a positive limit):
the match count is capped by the early stop, not pre-truncation. -/
theorem C3_matched_capped_amended {ε T : Type} (getNode : T → FilterableNode)
    (fetchPage : Nat → Nat → Except ε (MalListResponse T)) (filters : FilterParams)
    (requestedLimit initialOffset : Nat) (ctx : Option SeasonContext)
    (resp : MalListResponse T)
    (hact : hasActiveFilters filters = true)
    (hfp : fetchPage FILTERED_PAGE_SIZE initialOffset = Except.ok resp)
    (hlim : 1 ≤ requestedLimit) :
    ∃ meta,
      filteredFetch getNode fetchPage filters requestedLimit initialOffset ctx =
        Except.ok ((resp.data.filter
          (fun item => matchesFilters (getNode item) filters ctx)).take requestedLimit,
          meta) ∧
      meta.totalMatched = min requestedLimit
        (resp.data.filter
          (fun item => matchesFilters (getNode item) filters ctx)).length ∧
      meta.totalScanned = resp.data.length := by
  have hfe := @filteredFetch_active_eq ε T getNode fetchPage filters requestedLimit
    initialOffset ctx resp hact hfp
  rw [collectMatches_eq_filter_take _ _ _ hlim] at hfe
  rw [List.take_take, Nat.min_self] at hfe
  exact ⟨_, hfe, List.length_take _ _, rfl⟩

/-- Witness for the amended C3 at scenario B: `totalMatched = min 5 12 = 5`. -/
theorem C3_matched_capped_amended_witness :
    ∃ meta,
      filteredFetch (fun n : FilterableNode => n) sampleFetchB sampleSpecMinScore8
          5 0 none =
        Except.ok ((sampleWindowB.filter
          (fun item => matchesFilters item sampleSpecMinScore8 none)).take 5, meta) ∧
      meta.totalMatched = min 5
        (sampleWindowB.filter
          (fun item => matchesFilters item sampleSpecMinScore8 none)).length ∧
      meta.totalScanned = sampleWindowB.length :=
  C3_matched_capped_amended (fun n => n) sampleFetchB sampleSpecMinScore8 5 0 none
    { data := sampleWindowB, paging := { next := some "tok" } }
    (by decide) rfl (by decide)

/-- C5: under the paging capability contract (a returned page never exceeds
the requested size), every successful `filteredFetch` result satisfies
`totalMatched ≤ totalScanned` and
`items.length ≤ min requestedLimit totalMatched`. -/
theorem C5_meta_invariants {ε T : Type} (getNode : T → FilterableNode)
    (fetchPage : Nat → Nat → Except ε (MalListResponse T)) (filters : FilterParams)
    (requestedLimit initialOffset : Nat) (ctx : Option SeasonContext)
    (items : List T) (meta : FilterMeta)
    (hcap : ∀ (limit offset : Nat) (resp : MalListResponse T),
      fetchPage limit offset = Except.ok resp → resp.data.length ≤ limit)
    (hok : filteredFetch getNode fetchPage filters requestedLimit initialOffset ctx =
      Except.ok (items, meta)) :
    meta.totalMatched ≤ meta.totalScanned ∧
    items.length ≤ min requestedLimit meta.totalMatched := by
  rcases filteredFetch_ok_cases hok with ⟨hin, resp, hfp, hitems, hmeta⟩ |
    ⟨hact, resp, hfp, hitems, hmeta⟩
  · subst hmeta
    subst hitems
    exact ⟨le_refl _, le_min (hcap _ _ resp hfp) (le_refl _)⟩
  · subst hmeta
    subst hitems
    refine ⟨collectMatches_length_le _ _ _, ?_⟩
    rw [List.length_take]

/-- Witness for C5: inactive spec, empty page, limit 5. -/
theorem C5_meta_invariants_witness :
    ({ totalScanned := 0, totalMatched := 0, pagesScanned := 1, activeFilters := [],
       hasMorePages := false, nextOffset := none } : FilterMeta).totalMatched ≤
      ({ totalScanned := 0, totalMatched := 0, pagesScanned := 1, activeFilters := [],
         hasMorePages := false, nextOffset := none } : FilterMeta).totalScanned ∧
    ([] : List FilterableNode).length ≤ min 5
      ({ totalScanned := 0, totalMatched := 0, pagesScanned := 1, activeFilters := [],
         hasMorePages := false, nextOffset := none } : FilterMeta).totalMatched :=
  C5_meta_invariants (fun n => n)
    (fun _ _ => (Except.ok { data := [], paging := {} } :
      Except Unit (MalListResponse FilterableNode)))
    sampleInactiveSpec 5 0 none [] _
    (by intro l o resp h; cases h; simp) rfl

theorem all_imp_any {α : Type} (l : List α) (p : α → Bool) (hne : l ≠ [])
    (h : l.all p = true) : l.any p = true := by
  cases l with
  | nil => exact absurd rfl hne
  | cons x xs =>
    simp only [List.all_cons, Bool.and_eq_true] at h
    simp [List.any_cons, h.1]

/-- C6: with the same `genresInclude` set and all other filter fields fixed,
a record matching under `genreMode = and` also matches under
`genreMode = or`: the and-mode match set is a subset of the or-mode one. -/
theorem C6_andMode_subset_orMode (node : FilterableNode) (f : FilterParams)
    (ctx : Option SeasonContext)
    (h : matchesFilters node { f with genre_mode := some GenreMode.andMode } ctx = true) :
    matchesFilters node { f with genre_mode := some GenreMode.orMode } ctx = true := by
  unfold matchesFilters at h ⊢
  dsimp only at h ⊢
  simp only [Bool.and_eq_true] at h ⊢
  obtain ⟨⟨⟨⟨⟨⟨⟨hA, hB⟩, hC⟩, hD⟩, hE⟩, hF⟩, hG⟩, hH⟩ := h
  refine ⟨⟨⟨⟨⟨⟨⟨?_, hB⟩, hC⟩, hD⟩, hE⟩, hF⟩, hG⟩, hH⟩
  cases hgi : f.genres_include with
  | none => rfl
  | some gi =>
    rw [hgi] at hA
    by_cases hlen : gi.length > 0
    · have hA2 : (if gi.length > 0 then
          ((gi.map lower).all fun w =>
            ((node.genres.getD []).map fun g => lower g.name).contains w)
          else true) = true := hA
      rw [if_pos hlen] at hA2
      show (if gi.length > 0 then
          ((gi.map lower).any fun w =>
            ((node.genres.getD []).map fun g => lower g.name).contains w)
          else true) = true
      rw [if_pos hlen]
      refine all_imp_any _ _ ?_ hA2
      intro hnil
      rw [List.map_eq_nil_iff] at hnil
      subst hnil
      simp at hlen
    · simp [hlen]

/-- Witness for C6: a record tagged with both requested genres matches in
and-mode, hence in or-mode. -/
theorem C6_andMode_subset_orMode_witness :
    matchesFilters { genres := some [{ name := "Action" }, { name := "Romance" }] }
      { genres_include := some ["Action", "Romance"],
        genre_mode := some GenreMode.orMode } none = true :=
  C6_andMode_subset_orMode
    { genres := some [{ name := "Action" }, { name := "Romance" }] }
    { genres_include := some ["Action", "Romance"] } none (by decide)

/-- C10: when no `seasonContext` is supplied, the current-season check is
skipped entirely: the predicate result with `current_season_only = true` is
the same as with the flag false or absent, so no record (in particular none
lacking a premiere season) is rejected by that check. -/
theorem C10_season_check_skipped_without_context (node : FilterableNode)
    (f : FilterParams) (b : Option Bool) :
    matchesFilters node { f with current_season_only := some true } none =
      matchesFilters node { f with current_season_only := b } none := by
  unfold matchesFilters
  dsimp only
  cases b with
  | none => simp [jsTruthyBool]
  | some bb => cases bb <;> simp [jsTruthyBool]

/-- C7: genre matching is case-insensitive for both `genresInclude` and
`genresExclude`: any change of letter case of the record genre names or of
the requested genre names (same case-insensitive normal forms) leaves the
predicate result unchanged. -/
theorem C7_genre_matching_case_insensitive (node : FilterableNode)
    (g2 : Option (List Genre)) (f : FilterParams) (gi2 ge2 : Option (List String))
    (ctx : Option SeasonContext)
    (hg : (node.genres.getD []).map (fun g => lower g.name) =
          (g2.getD []).map (fun g => lower g.name))
    (hgi : f.genres_include.map (fun l => l.map lower) =
           gi2.map (fun l => l.map lower))
    (hge : f.genres_exclude.map (fun l => l.map lower) =
           ge2.map (fun l => l.map lower)) :
    matchesFilters node f ctx =
      matchesFilters { node with genres := g2 }
        { f with genres_include := gi2, genres_exclude := ge2 } ctx := by
  unfold matchesFilters
  dsimp only
  rw [hg]
  cases hfi : f.genres_include with
  | none =>
    cases gi2 with
    | some l2 => rw [hfi] at hgi; simp at hgi
    | none =>
      dsimp only
      cases hfe : f.genres_exclude with
      | none =>
        cases ge2 with
        | some e2 => rw [hfe] at hge; simp at hge
        | none => rfl
      | some e1 =>
        cases ge2 with
        | none => rw [hfe] at hge; simp at hge
        | some e2 =>
          rw [hfe] at hge
          simp at hge
          have hlen : e1.length = e2.length := by
            have h2 := congrArg List.length hge
            simpa using h2
          dsimp only
          rw [hge, hlen]
  | some l1 =>
    cases gi2 with
    | none => rw [hfi] at hgi; simp at hgi
    | some l2 =>
      rw [hfi] at hgi
      simp at hgi
      have hleni : l1.length = l2.length := by
        have h2 := congrArg List.length hgi
        simpa using h2
      dsimp only
      rw [hgi, hleni]
      cases hfe : f.genres_exclude with
      | none =>
        cases ge2 with
        | some e2 => rw [hfe] at hge; simp at hge
        | none => rfl
      | some e1 =>
        cases ge2 with
        | none => rw [hfe] at hge; simp at hge
        | some e2 =>
          rw [hfe] at hge
          simp at hge
          have hlene : e1.length = e2.length := by
            have h2 := congrArg List.length hge
            simpa using h2
          dsimp only
          rw [hge, hlene]

/-- Witness for C7: same record and request up to letter case, and the
record tagged Action does match a request for action. -/
theorem C7_genre_matching_case_insensitive_witness :
    (matchesFilters { genres := some [{ name := "Action" }] }
        { genres_include := some ["action"], genres_exclude := some ["Horror"] }
        none =
      matchesFilters { genres := some [{ name := "ACTION" }] }
        { genres_include := some ["AcTiOn"], genres_exclude := some ["hORROR"] }
        none) ∧
    matchesFilters { genres := some [{ name := "Action" }] }
      { genres_include := some ["action"], genres_exclude := some ["Horror"] }
      none = true :=
  ⟨C7_genre_matching_case_insensitive
      { genres := some [{ name := "Action" }] } (some [{ name := "ACTION" }])
      { genres_include := some ["action"], genres_exclude := some ["Horror"] }
      (some ["AcTiOn"]) (some ["hORROR"]) none (by decide) (by decide) (by decide),
   by decide⟩

/-- C8: the description builder is pure and deterministic (field-for-field
identical specs render identical ordered lists), renders the active fields
in the fixed canonical order genre-include (mode upper-cased), genre-exclude,
min-score, min-members, media-type, status, source, season-only marker, and
omits inactive fields entirely (an inactive spec renders the empty list). -/
theorem C8_describe_pure_canonical :
    (∀ f g : FilterParams,
       f.genres_include = g.genres_include → f.genres_exclude = g.genres_exclude →
       f.genre_mode = g.genre_mode → f.min_score = g.min_score →
       f.min_members = g.min_members → f.media_type = g.media_type →
       f.status = g.status → f.source = g.source →
       f.current_season_only = g.current_season_only →
       buildActiveFilterDescriptions f = buildActiveFilterDescriptions g) ∧
    (∀ f : FilterParams,
       buildActiveFilterDescriptions f =
         (if (f.genres_include.getD []).length > 0 then
            ["genres(" ++
               upper (genreModeToString (f.genre_mode.getD GenreMode.orMode)) ++
               ")=" ++ String.intercalate "," (f.genres_include.getD [])]
          else []) ++
         (if (f.genres_exclude.getD []).length > 0 then
            ["exclude_genres=" ++ String.intercalate "," (f.genres_exclude.getD [])]
          else []) ++
         (match f.min_score with
          | some q => ["min_score>=" ++ toString q]
          | none => []) ++
         (match f.min_members with
          | some n => ["min_members>=" ++ toString n]
          | none => []) ++
         (if (f.media_type.getD []).length > 0 then
            ["media_type=" ++ String.intercalate "," (f.media_type.getD [])]
          else []) ++
         (if jsTruthyStr f.status then ["status=" ++ f.status.getD ""] else []) ++
         (if (f.source.getD []).length > 0 then
            ["source=" ++ String.intercalate "," (f.source.getD [])]
          else []) ++
         (if jsTruthyBool f.current_season_only then ["current_season_only"]
          else [])) ∧
    (∀ f : FilterParams, hasActiveFilters f = false →
       buildActiveFilterDescriptions f = []) := by
  refine ⟨?_, ?_, ?_⟩
  · intro f g h1 h2 h3 h4 h5 h6 h7 h8 h9
    obtain ⟨f1, f2, f3, f4, f5, f6, f7, f8, f9⟩ := f
    obtain ⟨g1, g2, g3, g4, g5, g6, g7, g8, g9⟩ := g
    dsimp only at h1 h2 h3 h4 h5 h6 h7 h8 h9
    subst h1; subst h2; subst h3; subst h4; subst h5
    subst h6; subst h7; subst h8; subst h9
    rfl
  · intro f
    obtain ⟨f1, f2, f3, f4, f5, f6, f7, f8, f9⟩ := f
    cases f1 <;> cases f2 <;> cases f6 <;> cases f8 <;>
      simp [buildActiveFilterDescriptions]
  · intro f h
    obtain ⟨f1, f2, f3, f4, f5, f6, f7, f8, f9⟩ := f
    simp only [hasActiveFilters, Bool.or_eq_false_iff] at h
    cases f1 <;> cases f2 <;> cases f4 <;> cases f5 <;> cases f6 <;>
      cases f7 <;> cases f8 <;> cases f9 <;>
      simp_all [buildActiveFilterDescriptions, jsTruthyStr, jsTruthyBool]

/-- Witness for C8: determinism at a concrete spec and omission at the
inactive spec. -/
theorem C8_describe_pure_canonical_witness :
    buildActiveFilterDescriptions
        { genres_include := some ["Action"], genre_mode := some GenreMode.andMode,
          min_score := some 8 } =
      buildActiveFilterDescriptions
        { genres_include := some ["Action"], genre_mode := some GenreMode.andMode,
          min_score := some 8 } ∧
    buildActiveFilterDescriptions sampleInactiveSpec = [] :=
  ⟨C8_describe_pure_canonical.1
      { genres_include := some ["Action"], genre_mode := some GenreMode.andMode,
        min_score := some 8 }
      { genres_include := some ["Action"], genre_mode := some GenreMode.andMode,
        min_score := some 8 }
      rfl rfl rfl rfl rfl rfl rfl rfl rfl,
   C8_describe_pure_canonical.2.2 sampleInactiveSpec rfl⟩

end MalMcp
